import Mathlib

/-!
Verification of the inline summarization chain
(src/libs/langchain_v1/langchain/chains/summarization.py).

The Python module is embedded shallowly: documents, workflow state and
message dicts become Lean structures; the optional prompt argument
becomes an inductive of runtime values; code that can raise returns
`Except PyError`; the single outbound model call per node execution is made
observable by pairing every node result with the list of prompts sent to
the model.
-/

/-- A langchain document: a text payload (`page_content`) plus opaque
string-keyed metadata. -/
structure Document where
  page_content : String
  metadata : List (String × String)
deriving Repr, DecidableEq

/-- State `InlineSummarizationState`: `documents` plus the not-required `summary`
field (absent until the node executes). -/
structure InlineSummarizationState where
  documents : List Document
  summary : Option String
deriving Repr, DecidableEq

/-- Message roles used by the chain. -/
inductive Role
  | system
  | user
deriving Repr, DecidableEq

/-- A message dict `{"role": ..., "content": ...}` as built by `_get_prompt`. -/
structure MsgDict where
  role : Role
  content : String
deriving Repr, DecidableEq

/-- One element of the Python list returned by `_get_prompt`.  The code places
`default_system` — itself a list of message dicts — directly into the returned
list, so an element is either a message dict or a nested list of them. -/
inductive PromptItem
  | msg (m : MsgDict)
  | msgList (ms : List MsgDict)
deriving Repr, DecidableEq

abbrev Prompt := List PromptItem

/-- A runtime value passed as the `prompt` argument.  The Python signature
says `str | None`, but nothing stops a caller from passing any object
(the claims exercise the integer 42), so the embedding keeps a few
representative runtime shapes. -/
inductive PromptVal
  | none
  | str (s : String)
  | int (n : Int)
  | obj (tyName : String)
deriving Repr, DecidableEq

/-- The Python type name interpolated into the `TypeError` message. -/
def PromptVal.pyType : PromptVal → String
  | .none => "NoneType"
  | .str _ => "str"
  | .int _ => "int"
  | .obj t => t

/-- Holds exactly when the value satisfies the declared `str | None` type,
i.e. `_get_prompt` does not raise on it. -/
def PromptVal.isStrOrNone : PromptVal → Bool
  | .none => true
  | .str _ => true
  | .int _ => false
  | .obj _ => false

/-- Errors that can surface from a node execution: the `TypeError` raised by
`_get_prompt`, or an arbitrary failure raised by the model client. -/
inductive PyError
  | typeError (msg : String)
  | modelError (code : Nat)
deriving Repr, DecidableEq

/-- Modelled from the spec: the model response (langchain AIMessage, outside
src/) exposes a way to extract its textual content. -/
structure AIMessage where
  content : String
deriving Repr, DecidableEq

/-- Method `response.text()`: extract the textual content of the response. -/
def AIMessage.text (m : AIMessage) : String := m.content

/-- Modelled from the spec: the consumed model capability (BaseChatModel,
outside src/) offers a blocking `invoke` and a suspending `ainvoke`, each
taking the message sequence and returning a response or failing. -/
structure ChatModel where
  invoke : Prompt → Except PyError AIMessage
  ainvoke : Prompt → Except PyError AIMessage

/-- Class `InlineSummarizer`: holds the bound model and the configured prompt. -/
structure InlineSummarizer where
  model : ChatModel
  prompt : PromptVal

/-- Constructor `InlineSummarizer.__init__`: stores `model` and `prompt` unchanged;
performs no validation and cannot fail. -/
def InlineSummarizer.init (model : ChatModel) (prompt : PromptVal) :
    InlineSummarizer :=
  { model := model, prompt := prompt }

/-- The default system instruction (the adjacent Python string literals,
concatenated). -/
def defaultSystemContent : String :=
  "You are a helpful assistant that summarizes text. Please provide a concise summary of the documents provided by the user."

/-- Method `InlineSummarizer._get_prompt`: picks the system message list from the
configured prompt (raising `TypeError` when it is neither `None` nor a
string), joins the document contents with `"---\n\n"`, and returns the
two-element list `[default_system, user_dict]` — note that `default_system`
is a list, nested inside the result exactly as in the source. -/
def InlineSummarizer.getPrompt (self : InlineSummarizer)
    (state : InlineSummarizationState) : Except PyError Prompt := do
  let default_system : List MsgDict ←
    match self.prompt with
    | .none => .ok [⟨.system, defaultSystemContent⟩]
    | .str s => .ok [⟨.system, s⟩]
    | p =>
      .error (.typeError
        ("Invalid prompt type: " ++ p.pyType ++ ". Expected str or None."))
  let inlined_docs :=
    String.intercalate "---\n\n" (state.documents.map Document.page_content)
  return [PromptItem.msgList default_system,
          PromptItem.msg ⟨.user, inlined_docs⟩]

/-- The partial-state update returned by the node: exactly the `summary`
field. -/
structure SummarizationNodeUpdate where
  summary : String
deriving Repr, DecidableEq

/-- Blocking `_summarize_node`: build the prompt, invoke the model once,
return `{"summary": response.text()}`.  The second component records the
outbound model calls made during the execution, in order. -/
def _summarize_node (self : InlineSummarizer)
    (state : InlineSummarizationState) :
    Except PyError SummarizationNodeUpdate × List Prompt :=
  match self.getPrompt state with
  | .error e => (.error e, [])
  | .ok prompt =>
    match self.model.invoke prompt with
    | .error e => (.error e, [prompt])
    | .ok response => (.ok { summary := response.text }, [prompt])

/-- Suspending `_asummarize_node`: identical shape, but the call goes
through the model suspending path `ainvoke`. -/
def _asummarize_node (self : InlineSummarizer)
    (state : InlineSummarizationState) :
    Except PyError SummarizationNodeUpdate × List Prompt :=
  match self.getPrompt state with
  | .error e => (.error e, [])
  | .ok prompt =>
    match self.model.ainvoke prompt with
    | .error e => (.error e, [prompt])
    | .ok response => (.ok { summary := response.text }, [prompt])

/-- Modelled from the spec: `RunnableCallable` (langchain internal utils,
outside src/) pairs the blocking and the suspending node functions. -/
structure RunnableCallable where
  func : InlineSummarizationState →
    Except PyError SummarizationNodeUpdate × List Prompt
  afunc : InlineSummarizationState →
    Except PyError SummarizationNodeUpdate × List Prompt

/-- Method `InlineSummarizer.create_summarization_node`: wraps the two node
functions into one runnable. -/
def InlineSummarizer.create_summarization_node (self : InlineSummarizer) :
    RunnableCallable :=
  { func := _summarize_node self, afunc := _asummarize_node self }

/-- The langgraph entry sentinel. -/
def START : String := "__start__"

/-- The langgraph terminal sentinel. -/
def END : String := "__end__"

/-- Modelled from the spec: the langgraph `StateGraph` builder (outside
src/) keeps the three schemas, the named nodes and the directed edges. -/
structure StateGraph where
  state_schema : List String
  input_schema : List String
  output_schema : List String
  nodes : List (String × RunnableCallable)
  edges : List (String × String)

/-- Modelled from the spec: `StateGraph(...)` starts with no nodes and no
edges. -/
def StateGraph.mkGraph (stateS inputS outputS : List String) : StateGraph :=
  { state_schema := stateS, input_schema := inputS, output_schema := outputS,
    nodes := [], edges := [] }

/-- Modelled from the spec: `add_node` appends a named node. -/
def StateGraph.add_node (g : StateGraph) (name : String)
    (node : RunnableCallable) : StateGraph :=
  { g with nodes := g.nodes ++ [(name, node)] }

/-- Modelled from the spec: `add_edge` appends a directed edge. -/
def StateGraph.add_edge (g : StateGraph) (a b : String) : StateGraph :=
  { g with edges := g.edges ++ [(a, b)] }

/-- Modelled from the spec: `set_entry_point n` wires the start sentinel to
`n`. -/
def StateGraph.set_entry_point (g : StateGraph) (name : String) : StateGraph :=
  g.add_edge START name

/-- Field names of `InlineSummarizationState`. -/
def InlineSummarizationStateFields : List String := ["documents", "summary"]

/-- Field names of the `InputSchema` TypedDict: only `documents`. -/
def InputSchemaFields : List String := ["documents"]

/-- Field names of the `OutputSchema` TypedDict: only `summary`. -/
def OutputSchemaFields : List String := ["summary"]

/-- Method `InlineSummarizer.build`: one node named `"summarize"`, entry point set
to it, one edge from it to the terminal sentinel, input and output schemas
restricted to the two views. -/
def InlineSummarizer.build (self : InlineSummarizer) : StateGraph :=
  let builder := StateGraph.mkGraph InlineSummarizationStateFields
    InputSchemaFields OutputSchemaFields
  let builder := builder.add_node "summarize" self.create_summarization_node
  let builder := builder.set_entry_point "summarize"
  let builder := builder.add_edge "summarize" END
  builder

/-- Modelled from the spec: the external execution engine merges the partial
update into the run state by setting the `summary` field. -/
def applyUpdate (s : InlineSummarizationState)
    (u : SummarizationNodeUpdate) : InlineSummarizationState :=
  { s with summary := some u.summary }

/-- Spec-side formula for the user message content: the document contents in
order, with the literal separator between consecutive entries, none before
the first or after the last, and the empty string for the empty list. -/
def specUserContent : List String → String
  | [] => ""
  | [c] => c
  | c :: rest => c ++ "---\n\n" ++ specUserContent rest

/-- A stub model that answers `"S"` on both paths. -/
def stubModel : ChatModel :=
  { invoke := fun _ => .ok { content := "S" },
    ainvoke := fun _ => .ok { content := "S" } }

/-- A model that fails with the same error on both paths. -/
def failModel : ChatModel :=
  { invoke := fun _ => .error (.modelError 7),
    ainvoke := fun _ => .error (.modelError 7) }

/- ### Bridge between the code-side join and the spec-side formula -/

/-- The suffix a separator-join appends after its first element. -/
def sepTail (sep : String) : List String → String
  | [] => ""
  | a :: as => sep ++ a ++ sepTail sep as

theorem intercalate_go_eq (sep : String) (as : List String) (acc : String) :
    String.intercalate.go acc sep as = acc ++ sepTail sep as := by
  induction as generalizing acc with
  | nil => simp [String.intercalate.go, sepTail]
  | cons a as ih =>
    simp [String.intercalate.go, sepTail, ih, String.append_assoc]

theorem specUserContent_cons (a : String) (as : List String) :
    specUserContent (a :: as) = a ++ sepTail "---\n\n" as := by
  induction as generalizing a with
  | nil => simp [specUserContent, sepTail]
  | cons b bs ih =>
    simp [specUserContent, ih, sepTail, String.append_assoc]

theorem intercalate_eq_specUserContent (l : List String) :
    String.intercalate "---\n\n" l = specUserContent l := by
  cases l with
  | nil => rfl
  | cons a as =>
    rw [String.intercalate, intercalate_go_eq, specUserContent_cons]

/- ### Shared helper lemmas -/

theorem getPrompt_ok_of_valid (self : InlineSummarizer)
    (h : self.prompt.isStrOrNone = true) (state : InlineSummarizationState) :
    ∃ sys : MsgDict, self.getPrompt state =
      .ok [PromptItem.msgList [sys],
           PromptItem.msg ⟨.user,
             String.intercalate "---\n\n"
               (state.documents.map Document.page_content)⟩] := by
  unfold InlineSummarizer.getPrompt
  cases hp : self.prompt with
  | none => exact ⟨⟨.system, defaultSystemContent⟩, by simp [hp]⟩
  | str s => exact ⟨⟨.system, s⟩, by simp [hp]⟩
  | int n => rw [hp] at h; simp [PromptVal.isStrOrNone] at h
  | obj t => rw [hp] at h; simp [PromptVal.isStrOrNone] at h

theorem node_calls_once (self : InlineSummarizer)
    (state : InlineSummarizationState) (P : Prompt)
    (hp : self.getPrompt state = .ok P) :
    (_summarize_node self state).2 = [P]
    ∧ (_asummarize_node self state).2 = [P] := by
  constructor
  · simp only [_summarize_node, hp]
    cases self.model.invoke P <;> rfl
  · simp only [_asummarize_node, hp]
    cases self.model.ainvoke P <;> rfl

/- ### Claims -/

/-- C1 (counterexample): with no configured prompt and a single document
"hello", the prompt builder returns a two-element sequence whose FIRST
element is a nested one-element list wrapping the system message dict, not a
system message itself — so the sequence is not of the form
[system message, user message] as the invariant claims. -/
theorem C1_prompt_sequence_nested :
    (InlineSummarizer.init stubModel .none).getPrompt
        { documents := [{ page_content := "hello", metadata := [] }],
          summary := none } =
      .ok [PromptItem.msgList [⟨.system, defaultSystemContent⟩],
           PromptItem.msg ⟨.user, "hello"⟩]
    ∧ ∀ m₁ m₂ : MsgDict,
        (InlineSummarizer.init stubModel .none).getPrompt
            { documents := [{ page_content := "hello", metadata := [] }],
              summary := none } ≠
          .ok [PromptItem.msg m₁, PromptItem.msg m₂] := by
  have h1 : (InlineSummarizer.init stubModel .none).getPrompt
      { documents := [{ page_content := "hello", metadata := [] }],
        summary := none } =
      .ok [PromptItem.msgList [⟨.system, defaultSystemContent⟩],
           PromptItem.msg ⟨.user, "hello"⟩] := rfl
  refine ⟨h1, ?_⟩
  intro m₁ m₂ h
  rw [h1] at h
  simp at h

/-- C2: for every valid prompt configuration and every state, the user
message built by the prompt builder has as content the document contents
joined in list order with the separator between consecutive documents, no
separator before the first or after the last, and the empty document list
yields the empty-string user message without error. -/
theorem C2_user_content_join (self : InlineSummarizer)
    (h : self.prompt.isStrOrNone = true) (state : InlineSummarizationState) :
    ∃ sys : MsgDict,
      self.getPrompt state =
        .ok [PromptItem.msgList [sys],
             PromptItem.msg ⟨.user,
               specUserContent (state.documents.map Document.page_content)⟩] := by
  obtain ⟨sys, hp⟩ := getPrompt_ok_of_valid self h state
  exact ⟨sys, by rw [hp, intercalate_eq_specUserContent]⟩

/-- C2 witness: documents "A", "B" yield the user content "A---\n\nB". -/
theorem C2_witness :
    ∃ sys : MsgDict,
      (InlineSummarizer.init stubModel .none).getPrompt
          { documents := [{ page_content := "A", metadata := [] },
                          { page_content := "B", metadata := [] }],
            summary := none } =
        .ok [PromptItem.msgList [sys],
             PromptItem.msg ⟨.user, "A---\n\nB"⟩] :=
  C2_user_content_join (InlineSummarizer.init stubModel .none) rfl
    { documents := [{ page_content := "A", metadata := [] },
                    { page_content := "B", metadata := [] }],
      summary := none }

/-- C3: for every state, an absent prompt gives the fixed default system
message content (independent of the documents), and a string prompt P gives
system message content exactly P. -/
theorem C3_system_content (model : ChatModel)
    (state : InlineSummarizationState) :
    (∃ rest, (InlineSummarizer.init model .none).getPrompt state =
        .ok (PromptItem.msgList [⟨.system, defaultSystemContent⟩] :: rest))
    ∧ ∀ P : String, ∃ rest,
        (InlineSummarizer.init model (.str P)).getPrompt state =
          .ok (PromptItem.msgList [⟨.system, P⟩] :: rest) := by
  constructor
  · exact ⟨[PromptItem.msg ⟨.user, String.intercalate "---\n\n"
      (state.documents.map Document.page_content)⟩], rfl⟩
  · intro P
    exact ⟨[PromptItem.msg ⟨.user, String.intercalate "---\n\n"
      (state.documents.map Document.page_content)⟩], rfl⟩

/-- C4: with a prompt value that is neither absent nor a string, both node
forms return the TypeError raised by the prompt builder (the spec calls this
ConfigurationError) and the model-call trace is empty: the error precedes
any model call. -/
theorem C4_config_error_before_call (model : ChatModel) (p : PromptVal)
    (h : p.isStrOrNone = false) (state : InlineSummarizationState) :
    _summarize_node (InlineSummarizer.init model p) state =
      (.error (.typeError
        ("Invalid prompt type: " ++ p.pyType ++ ". Expected str or None.")), [])
    ∧ _asummarize_node (InlineSummarizer.init model p) state =
      (.error (.typeError
        ("Invalid prompt type: " ++ p.pyType ++ ". Expected str or None.")), []) := by
  cases p with
  | none => simp [PromptVal.isStrOrNone] at h
  | str s => simp [PromptVal.isStrOrNone] at h
  | int n => exact ⟨rfl, rfl⟩
  | obj t => exact ⟨rfl, rfl⟩

/-- C4 witness: the prompt value 42 makes the node fail with no model call. -/
theorem C4_witness :
    (PromptVal.int 42).isStrOrNone = false
    ∧ _summarize_node (InlineSummarizer.init stubModel (.int 42))
        { documents := [], summary := none } =
      (.error (.typeError "Invalid prompt type: int. Expected str or None."), []) :=
  ⟨rfl, (C4_config_error_before_call stubModel (.int 42) rfl
    { documents := [], summary := none }).1⟩

/-- C5: for a deterministic model (invoke and ainvoke agree on every
prompt), the blocking and the suspending node return identical results on
every state. -/
theorem C5_sync_async_equal (self : InlineSummarizer)
    (h : ∀ p, self.model.invoke p = self.model.ainvoke p)
    (state : InlineSummarizationState) :
    _summarize_node self state = _asummarize_node self state := by
  have hm : self.model.invoke = self.model.ainvoke := funext h
  simp only [_summarize_node, _asummarize_node, hm]

/-- C5 witness: the stub model is deterministic and both paths agree on a
one-document state. -/
theorem C5_witness :
    _summarize_node (InlineSummarizer.init stubModel .none)
        { documents := [{ page_content := "A", metadata := [] }],
          summary := none } =
      _asummarize_node (InlineSummarizer.init stubModel .none)
        { documents := [{ page_content := "A", metadata := [] }],
          summary := none } :=
  C5_sync_async_equal (InlineSummarizer.init stubModel .none)
    (fun _ => rfl)
    { documents := [{ page_content := "A", metadata := [] }], summary := none }

/-- C6: the graph produced by build has exactly one named node wrapping the
summarization runnable, the entry sentinel wired to it, a single further
edge from it to the terminal sentinel, and input/output schemas restricted
to the documents-only and summary-only views. -/
theorem C6_build_shape (self : InlineSummarizer) :
    self.build.nodes = [("summarize", self.create_summarization_node)]
    ∧ self.build.edges = [(START, "summarize"), ("summarize", END)]
    ∧ self.build.input_schema = ["documents"]
    ∧ self.build.output_schema = ["summary"] :=
  ⟨rfl, rfl, rfl, rfl⟩

/-- C7: when the model call fails, either node form returns that very error
unmodified (after the single outbound call), and no summary update is
produced. -/
theorem C7_failure_propagates (self : InlineSummarizer)
    (state : InlineSummarizationState) (P : Prompt) (e : PyError)
    (hp : self.getPrompt state = .ok P) :
    (self.model.invoke P = .error e →
      _summarize_node self state = (.error e, [P]))
    ∧ (self.model.ainvoke P = .error e →
      _asummarize_node self state = (.error e, [P])) := by
  constructor
  · intro hf
    simp only [_summarize_node, hp, hf]
  · intro hf
    simp only [_asummarize_node, hp, hf]

/-- C7 witness: a model failing with modelError 7 makes the node return
exactly that error. -/
theorem C7_witness :
    _summarize_node (InlineSummarizer.init failModel .none)
        { documents := [], summary := none } =
      (.error (.modelError 7),
       [[PromptItem.msgList [⟨.system, defaultSystemContent⟩],
         PromptItem.msg ⟨.user, ""⟩]]) :=
  (C7_failure_propagates (InlineSummarizer.init failModel .none)
    { documents := [], summary := none }
    [PromptItem.msgList [⟨.system, defaultSystemContent⟩],
     PromptItem.msg ⟨.user, ""⟩]
    (.modelError 7) rfl).1 rfl

/-- C8: for a valid prompt configuration, each node invocation makes exactly
one outbound model call (on either path), and the returned update carries
only the summary field: merging it into the state leaves documents (and
hence the content of every document) unchanged and only sets summary. -/
theorem C8_frame_single_call (self : InlineSummarizer)
    (h : self.prompt.isStrOrNone = true) (state : InlineSummarizationState) :
    (_summarize_node self state).2.length = 1
    ∧ (_asummarize_node self state).2.length = 1
    ∧ ∀ u : SummarizationNodeUpdate,
        applyUpdate state u =
          { documents := state.documents, summary := some u.summary } := by
  obtain ⟨sys, hp⟩ := getPrompt_ok_of_valid self h state
  obtain ⟨h1, h2⟩ := node_calls_once self state _ hp
  refine ⟨?_, ?_, fun u => rfl⟩
  · rw [h1]; rfl
  · rw [h2]; rfl

/-- C8 witness: one model call on a concrete valid configuration. -/
theorem C8_witness :
    (_summarize_node (InlineSummarizer.init stubModel (.str "P"))
        { documents := [{ page_content := "A", metadata := [] }],
          summary := none }).2.length = 1 :=
  (C8_frame_single_call (InlineSummarizer.init stubModel (.str "P")) rfl
    { documents := [{ page_content := "A", metadata := [] }],
      summary := none }).1

/-- C9: constructing an InlineSummarizer succeeds for every prompt value and
stores model and prompt unvalidated; for a non-string non-absent prompt the
TypeError is raised anew on every node execution. -/
theorem C9_init_unvalidated (model : ChatModel) (p : PromptVal) :
    (InlineSummarizer.init model p).prompt = p
    ∧ (InlineSummarizer.init model p).model = model
    ∧ (p.isStrOrNone = false → ∀ state, ∃ msg,
        _summarize_node (InlineSummarizer.init model p) state =
          (.error (.typeError msg), [])) := by
  refine ⟨rfl, rfl, ?_⟩
  intro h state
  cases p with
  | none => simp [PromptVal.isStrOrNone] at h
  | str s => simp [PromptVal.isStrOrNone] at h
  | int n => exact ⟨_, rfl⟩
  | obj t => exact ⟨_, rfl⟩

/-- C9 witness: a dict-typed prompt is stored at construction and only fails
at execution time. -/
theorem C9_witness :
    (InlineSummarizer.init stubModel (.obj "dict")).prompt = PromptVal.obj "dict"
    ∧ ∃ msg, _summarize_node (InlineSummarizer.init stubModel (.obj "dict"))
        { documents := [], summary := none } =
      (.error (.typeError msg), []) :=
  ⟨(C9_init_unvalidated stubModel (.obj "dict")).1,
   (C9_init_unvalidated stubModel (.obj "dict")).2.2 rfl
     { documents := [], summary := none }⟩

/-- C10: two states agreeing on the document content fields produce the
same prompt and the same node output on both paths: document metadata and a
pre-existing summary field have no influence. -/
theorem C10_content_noninterference (self : InlineSummarizer)
    (s₁ s₂ : InlineSummarizationState)
    (hd : s₁.documents.map Document.page_content =
          s₂.documents.map Document.page_content) :
    self.getPrompt s₁ = self.getPrompt s₂
    ∧ _summarize_node self s₁ = _summarize_node self s₂
    ∧ _asummarize_node self s₁ = _asummarize_node self s₂ := by
  have hp : self.getPrompt s₁ = self.getPrompt s₂ := by
    unfold InlineSummarizer.getPrompt
    rw [hd]
  refine ⟨hp, ?_, ?_⟩
  · simp only [_summarize_node, hp]
  · simp only [_asummarize_node, hp]

/-- C10 witness: differing metadata and a pre-existing summary do not change
the node output. -/
theorem C10_witness :
    _summarize_node (InlineSummarizer.init stubModel .none)
        { documents := [{ page_content := "A", metadata := [("k", "v")] }],
          summary := some "old" } =
      _summarize_node (InlineSummarizer.init stubModel .none)
        { documents := [{ page_content := "A", metadata := [] }],
          summary := none } :=
  (C10_content_noninterference (InlineSummarizer.init stubModel .none)
    { documents := [{ page_content := "A", metadata := [("k", "v")] }],
      summary := some "old" }
    { documents := [{ page_content := "A", metadata := [] }],
      summary := none } rfl).2.1
